/-
Verification development for the LabChain transaction-validation core.

Shallow embedding of the two Python transaction modules:
  * `WF` models `labchain/workflow/taskTransaction.py` (the current validator);
  * `DS` models `labchain/datastructure/taskTransaction.py` (the legacy variant).

Python exceptions are modelled with `Except VErr`; machine-level collaborators
(the base64/ECC key import and the base-class signature verification, which are
outside the validation modules) are abstracted into a `Crypto` record of
boolean-valued oracles, as the spec describes them (§4.1, §4.2, §6).
-/
import Mathlib

/-- Runtime class tag of a transaction object: the base `Transaction` class, a
`TaskTransaction`, or a `WorkflowTransaction` (a subclass of `TaskTransaction`). -/
inductive TxnKind
  | base
  | task
  | workflow
deriving DecidableEq

/-- The payload dictionary of a transaction, with the keys the validation code
reads.  `document` keeps only the attribute names (the dict keys): no validation
step ever reads an attribute's value. -/
structure Payload where
  transaction_type : String
  workflow_id : String
  previous_transaction : String
  workflow_transaction : String
  in_charge : String
  document : List String
  processes : List (String × List String)
  permissions : List (String × List String)
deriving DecidableEq

/-- A transaction object: runtime class tag, `sender`, `receiver`, `payload`. -/
structure Txn where
  kind : TxnKind
  sender : String
  receiver : String
  payload : Payload
deriving DecidableEq

/-- Property `type` (`payload['transaction_type']`). -/
def Txn.type (t : Txn) : String := t.payload.transaction_type

/-- Property `document` (the keys of `payload['document']`). -/
def Txn.document (t : Txn) : List String := t.payload.document

/-- Property `in_charge` (`payload['in_charge']`). -/
def Txn.in_charge (t : Txn) : String := t.payload.in_charge

/-- Property `workflow_ID` (`payload['workflow_id']`). -/
def Txn.workflow_ID (t : Txn) : String := t.payload.workflow_id

/-- Property `previous_transaction` (`payload['previous_transaction']`). -/
def Txn.previous_transaction (t : Txn) : String := t.payload.previous_transaction

/-- Property `workflow_transaction` (`payload['workflow_transaction']`). -/
def Txn.workflow_transaction (t : Txn) : String := t.payload.workflow_transaction

/-- Property `processes` (`payload['processes']`). -/
def Txn.processes (t : Txn) : List (String × List String) := t.payload.processes

/-- Property `permissions` (`payload['permissions']`). -/
def Txn.permissions (t : Txn) : List (String × List String) := t.payload.permissions

/-- Modelled from the spec: the ledger facade (§6) plus the pending-pool facade.
The `Blockchain` and `TxPool` classes are not part of the validation modules;
the spec gives their read interface: `get_transaction(hash) -> Transaction |
absent`, `get_all_transactions()`, `search_by_sender`, `search_by_receiver`,
and `get_workflow_transactions()` on the pool.  `committed` is the hash-keyed
committed history; `poolWorkflows` the pending genesis transactions. -/
structure Ledger where
  committed : List (String × Txn)
  poolWorkflows : List Txn
deriving DecidableEq

/-- Facade method `blockchain.get_transaction(hash)`: resolve a hash in committed state. -/
def Ledger.get_transaction (l : Ledger) (h : String) : Option Txn :=
  (l.committed.find? (fun p => p.1 == h)).map (fun p => p.2)

/-- Facade method `blockchain.get_all_transactions()`. -/
def Ledger.get_all_transactions (l : Ledger) : List Txn :=
  l.committed.map (fun p => p.2)

/-- Facade method `blockchain.search_transaction_from_sender(public_key)`. -/
def Ledger.search_transaction_from_sender (l : Ledger) (s : String) : List Txn :=
  l.get_all_transactions.filter (fun x => x.sender == s)

/-- Facade method `blockchain.search_transaction_to_receiver(public_key)`. -/
def Ledger.search_transaction_to_receiver (l : Ledger) (r : String) : List Txn :=
  l.get_all_transactions.filter (fun x => x.receiver == r)

/-- Modelled from the spec: the cryptographic provider (§6) and the base-class
signature check (§4.2), neither of which is under the validation modules.
`keyOk k` is "the first PID segment `k` base64-decodes and the provider's
`import_public_key` accepts it"; `sigOk t` is the outcome of the base
`Transaction.validate_transaction` signature verification, a boolean (§4.2). -/
structure Crypto where
  keyOk : String → Bool
  sigOk : Txn → Bool

/-- The Python exceptions that can escape the validation code. -/
inductive VErr
  | corruptedChain
  | keyErr
  | attrErr
  | typeErr
deriving DecidableEq

/-- Python `str.split(sep)` on a character list: Python semantics (no collapsing of
empty segments; the empty string yields one empty segment). -/
def splitCharAux (sep : Char) : List Char → List Char → List (List Char)
  | [], acc => [acc.reverse]
  | c :: rest, acc =>
      if c = sep then acc.reverse :: splitCharAux sep rest []
      else splitCharAux sep rest (c :: acc)

/-- Python `PID.split(sep='_')`. -/
def pySplitUnderscore (s : String) : List String :=
  (splitCharAux '_' s.data []).map (fun cs => String.mk cs)

/-- Python `s.split(sep='_')[0]`: the public-key component of a PID.  `split` always
yields at least one segment, so the index never fails. -/
def pidKeyPart (s : String) : String :=
  (pySplitUnderscore s).headD ""

/-- Strip leading and trailing whitespace, as Python `int(...)` does before
parsing. -/
def pyStrip (cs : List Char) : List Char :=
  ((cs.dropWhile Char.isWhitespace).reverse.dropWhile Char.isWhitespace).reverse

/-- Digit run continuation for Python integer literals: after the first digit,
single underscores may separate digit groups (`int("1_0")` succeeds,
`int("1__0")` and `int("1_")` fail). -/
def pyDigitsAux : List Char → Bool
  | [] => true
  | '_' :: c :: rest => c.isDigit && pyDigitsAux rest
  | c :: rest => c.isDigit && pyDigitsAux rest

/-- A nonempty Python digit run (first character a digit). -/
def pyDigitsOk : List Char → Bool
  | [] => false
  | c :: rest => c.isDigit && pyDigitsAux rest

/-- Numeric value of a digit run (underscores discarded). -/
def pyNatVal (cs : List Char) : Nat :=
  (cs.filter Char.isDigit).foldl (fun a c => 10 * a + (c.toNat - 48)) 0

/-- Python `int(s)`: optional surrounding whitespace, optional sign, then a
digit run.  `none` models the `ValueError` that the caller catches. -/
def pyIntParse (s : String) : Option Int :=
  match pyStrip s.data with
  | '+' :: rest => if pyDigitsOk rest then some (pyNatVal rest : Int) else none
  | '-' :: rest => if pyDigitsOk rest then some (-(pyNatVal rest : Int)) else none
  | cs => if pyDigitsOk cs then some (pyNatVal cs : Int) else none

/-- Python dict indexing / `in` test for the string-keyed `processes` and
`permissions` dictionaries. -/
def dictLookup (m : List (String × List String)) (k : String) : Option (List String) :=
  (m.find? (fun p => p.1 == k)).map (fun p => p.2)

namespace WF

/-- Method `TaskTransaction._check_pid_well_formedness` (workflow variant): split on
`_`, require exactly two parts, the second an `int(...)`-parsable number, the
first a base64 string the provider imports as a public key.  Every failure
returns `false`; the `try`/`except` blocks catch the decode errors. -/
def check_pid_well_formedness (c : Crypto) (PID : String) : Bool :=
  match pySplitUnderscore PID with
  | [pid_pubkey, pid_number] =>
      match pyIntParse pid_number with
      | none => false
      | some _ => c.keyOk pid_pubkey
  | _ => false

/-- Method `TaskTransaction.validate_transaction_common`: PID check on `in_charge`,
then the base-class signature verification. -/
def validate_transaction_common (c : Crypto) (t : Txn) : Bool :=
  if check_pid_well_formedness c t.in_charge = false then false
  else c.sigOk t

/-- Method `TaskTransaction._check_permissions_write` (workflow variant): a falsy
`workflow_transaction` fails; every attribute of `self.document` must be a
`permissions` key listing `previous_transaction.in_charge`. -/
def check_permissions_write (t previous : Txn) (workflow : Option Txn) : Bool :=
  match workflow with
  | none => false
  | some w =>
      t.document.all (fun attributeName =>
        match dictLookup w.permissions attributeName with
        | none => false
        | some pids => pids.contains previous.in_charge)

/-- Method `TaskTransaction._check_process_definition`: indexing
`process_definition[previous_transaction.in_charge]` raises `KeyError`
(modelled `.error .keyErr`) when the key is absent; otherwise `self.in_charge`
must be among the successors. -/
def check_process_definition (t : Txn) (previous : Option Txn) (workflow : Txn) :
    Except VErr Bool :=
  match previous with
  | none => .ok true
  | some prev =>
      match dictLookup workflow.processes prev.in_charge with
      | none => .error .keyErr
      | some succs => .ok (succs.contains t.in_charge)

/-- Method `TaskTransaction._check_for_duplicate_transactions`: intersection of the
transactions sent by `self.sender` and received by `self.receiver`, kept only
when instances of `TaskTransaction`/`WorkflowTransaction` with the same
`workflow_ID` and the same `previous_transaction`; any survivor fails. -/
def check_for_duplicate_transactions (t : Txn) (l : Ledger) : Bool :=
  if 0 <
    (((((l.search_transaction_from_sender t.sender).filter
        (fun x => decide (x ∈ l.search_transaction_to_receiver t.receiver))).filter
        (fun x => x.kind == TxnKind.task || x.kind == TxnKind.workflow)).filter
        (fun x => x.workflow_ID == t.workflow_ID)).filter
        (fun x => x.previous_transaction == t.previous_transaction)).length
  then false else true

/-- Method `TaskTransaction.validate_transaction` (workflow variant), lines 21-86.
A missing previous transaction raises `ValueError` (`.corruptedChain`); a
`None` workflow transaction is dereferenced at the second `workflow_ID`
comparison (`.attrErr`); the process-definition step can raise `.keyErr`. -/
def validate (c : Crypto) (t : Txn) (l : Ledger) : Except VErr Bool :=
  if t.type ≠ "2" ∧ t.type ≠ "1" then .ok false else
  match l.get_transaction t.previous_transaction,
        l.get_transaction t.workflow_transaction with
  | none, _ => .error .corruptedChain
  | some previous, workflow_opt =>
    if t.workflow_ID ≠ previous.workflow_ID then .ok false else
    match workflow_opt with
    | none => .error .attrErr
    | some workflow =>
      if t.workflow_ID ≠ workflow.workflow_ID then .ok false else
      if ¬ previous.receiver = t.sender then .ok false else
      if ¬ pidKeyPart previous.in_charge = t.sender then .ok false else
      if ¬ pidKeyPart t.in_charge = t.receiver then .ok false else
      if check_permissions_write t previous (some workflow) = false then .ok false else
      match check_process_definition t (some previous) workflow with
      | .error e => .error e
      | .ok b =>
        if b = false then .ok false else
        if check_for_duplicate_transactions t l = false then .ok false else
        .ok (validate_transaction_common c t)

/-- Method `WorkflowTransaction.validate_transaction`, lines 215-253: type tag `'1'`;
workflow-ID uniqueness over committed history plus the pending pool, restricted
to reconstructed transactions whose type tag is `'1'`; PID well-formedness of
`processes` and `permissions`; every `permissions` key among the `document`
keys; then the common PID + signature check. -/
def validateWorkflow (c : Crypto) (t : Txn) (l : Ledger) : Except VErr Bool :=
  if t.type ≠ "1" then .ok false else
  if ((l.get_all_transactions ++ l.poolWorkflows).filter
      (fun x => x.type == "1")).any
      (fun w => t.workflow_ID == w.workflow_ID) then .ok false else
  if (t.processes.all (fun p =>
        check_pid_well_formedness c p.1 &&
        p.2.all (fun r => check_pid_well_formedness c r))) = false then .ok false else
  if (t.permissions.all (fun pr =>
        pr.2.all (fun pid => check_pid_well_formedness c pid) &&
        t.document.contains pr.1)) = false then .ok false else
  .ok (validate_transaction_common c t)

end WF

namespace DS

/-- Method `TaskTransaction._check_permissions_write` (datastructure variant): note it
tests `self.in_charge`, not the predecessor's. -/
def check_permissions_write (t : Txn) (workflow : Option Txn) : Bool :=
  match workflow with
  | none => false
  | some w =>
      t.document.all (fun attributeName =>
        match dictLookup w.permissions attributeName with
        | none => false
        | some pids => pids.contains t.in_charge)

/-- The conjunction of the checks a datastructure-variant task transaction
passes before the call `self._check_process_definition()` is reached. -/
def reaches_process_definition (t : Txn) (l : Ledger) : Prop :=
  t.type = "2" ∧
  ∃ previous, l.get_transaction t.previous_transaction = some previous ∧
    previous.receiver = t.sender ∧
    pidKeyPart previous.in_charge = t.sender ∧
    pidKeyPart t.in_charge = t.receiver ∧
    check_permissions_write t (l.get_transaction t.workflow_transaction) = true

/-- Method `TaskTransaction.validate_transaction` (datastructure variant), lines
14-51.  The call `self._check_process_definition()` omits the method's two
required arguments, so reaching it raises `TypeError` (`.typeErr`); the
`crypto_helper` argument is received but never consulted on any path. -/
def validate (_c : Crypto) (t : Txn) (l : Ledger) : Except VErr Bool :=
  if t.type ≠ "2" then .ok false else
  match l.get_transaction t.previous_transaction with
  | none => .error .corruptedChain
  | some previous =>
    if ¬ previous.receiver = t.sender then .ok false else
    if ¬ pidKeyPart previous.in_charge = t.sender then .ok false else
    if ¬ pidKeyPart t.in_charge = t.receiver then .ok false else
    if check_permissions_write t (l.get_transaction t.workflow_transaction)
        = false then .ok false else
    .error .typeErr

end DS

/-- Constructor `Transaction.__init__` field assignment followed by the
`TaskTransaction.__init__` override `payload['transaction_type'] = '2'`
(identical in both module variants). -/
def TaskTransaction_init (sender receiver : String) (payload : Payload) : Txn :=
  { kind := TxnKind.task, sender := sender, receiver := receiver,
    payload := { payload with transaction_type := "2" } }

/-- Constructor `WorkflowTransaction.__init__`: the `super().__init__` chain first sets the
tag to `'2'`, then the override sets `payload['transaction_type'] = '1'`
(identical in both module variants). -/
def WorkflowTransaction_init (sender receiver : String) (payload : Payload) : Txn :=
  let t := TaskTransaction_init sender receiver payload
  { t with kind := TxnKind.workflow,
           payload := { t.payload with transaction_type := "1" } }

/-- Sanity checks that the split model follows Python semantics. -/
theorem pySplitUnderscore_model_checks :
    pySplitUnderscore "A_1" = ["A", "1"] ∧
    pySplitUnderscore "a__b" = ["a", "", "b"] ∧
    pySplitUnderscore "" = [""] ∧
    pidKeyPart "S_1" = "S" := by decide

/-- Sanity checks that the integer-parse model follows Python `int(...)`. -/
theorem pyIntParse_model_checks :
    pyIntParse "-1" = some (-1) ∧
    pyIntParse " 10 " = some 10 ∧
    pyIntParse "1_0" = some 10 ∧
    pyIntParse "1__0" = none ∧
    pyIntParse "x" = none := by decide

/-- A provider that accepts every key and every signature (used for concrete
evaluation of scenarios). -/
def cryptoYes : Crypto :=
  { keyOk := fun _ => true, sigOk := fun _ => true }

/-- Modelled from the spec: the PID acceptance condition in the words of the
claim — exactly two parts, the second parsing as a NON-NEGATIVE integer, the
first accepted by the provider. -/
def pid_spec_nonneg (c : Crypto) (PID : String) : Bool :=
  match pySplitUnderscore PID with
  | [k, n] =>
      (match pyIntParse n with
       | some v => decide (0 ≤ v)
       | none => false) && c.keyOk k
  | _ => false

/-- The PID acceptance condition with the sign restriction dropped: exactly two
parts, the second parsing as an integer, the first accepted by the provider. -/
def pid_spec_int (c : Crypto) (PID : String) : Bool :=
  match pySplitUnderscore PID with
  | [k, n] => (pyIntParse n).isSome && c.keyOk k
  | _ => false

/-- C7 (counterexample): the code accepts the PID `"A_-1"` whose sequence part
is the negative integer `-1` (Python `int` accepts a sign), while the claim's
non-negativity condition rejects it. -/
theorem pid_accepts_negative_sequence_cex :
    WF.check_pid_well_formedness cryptoYes "A_-1" = true ∧
    pid_spec_nonneg cryptoYes "A_-1" = false ∧
    pyIntParse "-1" = some (-1) := by
  refine ⟨rfl, rfl, rfl⟩

/-- C7 (amended): the PID well-formedness check accepts a string iff splitting
on `_` yields exactly two parts, the second parses as an integer (sign
allowed), and the provider accepts the first; it is a total boolean function,
so no failure escapes as an exception. -/
theorem pid_check_characterization (c : Crypto) (PID : String) :
    WF.check_pid_well_formedness c PID = pid_spec_int c PID := by
  unfold WF.check_pid_well_formedness pid_spec_int
  cases h : pySplitUnderscore PID with
  | nil => rfl
  | cons a tl =>
    cases tl with
    | nil => rfl
    | cons b tl2 =>
      cases tl2 with
      | nil => cases hpi : pyIntParse b <;> simp [hpi]
      | cons c2 tl3 => rfl

/-- C7 (witness): the characterization evaluated at a concrete PID. -/
theorem pid_check_characterization_witness :
    WF.check_pid_well_formedness cryptoYes "B_7" = pid_spec_int cryptoYes "B_7" :=
  pid_check_characterization cryptoYes "B_7"

/-- C9: both constructors force the type tag, overwriting whatever
`transaction_type` the caller supplied in the payload: a fresh
`TaskTransaction` carries `'2'`, a fresh `WorkflowTransaction` carries `'1'`. -/
theorem constructor_sets_transaction_type (sender receiver : String) (p : Payload) :
    (TaskTransaction_init sender receiver p).payload.transaction_type = "2" ∧
    (WorkflowTransaction_init sender receiver p).payload.transaction_type = "1" :=
  ⟨rfl, rfl⟩

/-- C9 (witness): the constructors evaluated on a concrete payload that
supplies a conflicting `transaction_type`. -/
theorem constructor_sets_transaction_type_witness :
    (TaskTransaction_init "S" "R"
      { transaction_type := "9", workflow_id := "W", previous_transaction := "",
        workflow_transaction := "", in_charge := "", document := [],
        processes := [], permissions := [] }).payload.transaction_type = "2" ∧
    (WorkflowTransaction_init "S" "R"
      { transaction_type := "9", workflow_id := "W", previous_transaction := "",
        workflow_transaction := "", in_charge := "", document := [],
        processes := [], permissions := [] }).payload.transaction_type = "1" :=
  constructor_sets_transaction_type "S" "R"
    { transaction_type := "9", workflow_id := "W", previous_transaction := "",
      workflow_transaction := "", in_charge := "", document := [],
      processes := [], permissions := [] }

/-- C10: in the datastructure variant, every run either fails one of the early
checks (returning `false`), raises on a missing predecessor, or reaches
`self._check_process_definition()` — a call missing the method's two required
arguments, hence a `TypeError`; therefore `validate_transaction` can never
return `true`, and every input that reaches that step raises the `TypeError`. -/
theorem ds_validate_never_true (c : Crypto) (t : Txn) (l : Ledger) :
    DS.validate c t l ≠ Except.ok true ∧
    (DS.reaches_process_definition t l →
      DS.validate c t l = Except.error VErr.typeErr) := by
  constructor
  · intro h
    unfold DS.validate at h
    split at h
    · exact absurd h (by simp)
    · split at h
      · exact absurd h (by simp)
      · split at h
        · exact absurd h (by simp)
        · split at h
          · exact absurd h (by simp)
          · split at h
            · exact absurd h (by simp)
            · split at h
              · exact absurd h (by simp)
              · exact absurd h (by simp)
  · intro hr
    obtain ⟨hty, previous, hprev, h1, h2, h3, h4⟩ := hr
    unfold DS.validate
    rw [hprev]
    simp [hty, h1, h2, h3, h4]

/-- A committed predecessor for the datastructure-variant scenario. -/
def dsPrev : Txn :=
  { kind := TxnKind.task, sender := "X", receiver := "S",
    payload := { transaction_type := "2", workflow_id := "W",
                 previous_transaction := "", workflow_transaction := "",
                 in_charge := "S_0", document := [], processes := [],
                 permissions := [] } }

/-- A committed genesis record for the datastructure-variant scenario. -/
def dsWf : Txn :=
  { kind := TxnKind.workflow, sender := "G", receiver := "X",
    payload := { transaction_type := "1", workflow_id := "W",
                 previous_transaction := "", workflow_transaction := "",
                 in_charge := "X_0", document := [], processes := [],
                 permissions := [] } }

/-- A task transaction that passes every check of the datastructure variant up
to the broken `_check_process_definition()` call. -/
def dsT : Txn :=
  { kind := TxnKind.task, sender := "S", receiver := "R",
    payload := { transaction_type := "2", workflow_id := "W",
                 previous_transaction := "h0", workflow_transaction := "hw",
                 in_charge := "R_1", document := [], processes := [],
                 permissions := [] } }

/-- Ledger holding the predecessor and the genesis record at their hashes. -/
def dsL : Ledger :=
  { committed := [("h0", dsPrev), ("hw", dsWf)], poolWorkflows := [] }

/-- C10 (witness): a concrete input that reaches the broken call and gets the
`TypeError`. -/
theorem ds_validate_never_true_witness :
    DS.reaches_process_definition dsT dsL ∧
    DS.validate cryptoYes dsT dsL ≠ Except.ok true ∧
    DS.validate cryptoYes dsT dsL = Except.error VErr.typeErr :=
  ⟨⟨rfl, dsPrev, rfl, rfl, rfl, rfl, rfl⟩,
   (ds_validate_never_true cryptoYes dsT dsL).1,
   (ds_validate_never_true cryptoYes dsT dsL).2
     ⟨rfl, dsPrev, rfl, rfl, rfl, rfl, rfl⟩⟩

/-- C8: validation is deterministic: two runs of either validator on the same
transaction against the same ledger/pool snapshot yield the same outcome
(same boolean or same raised error).  The embedding is a pure function of the
snapshot: no hidden input reaches the decision. -/
theorem validation_deterministic (c : Crypto) (t : Txn) (l : Ledger)
    (r1 r2 s1 s2 : Except VErr Bool)
    (h1 : r1 = WF.validate c t l) (h2 : r2 = WF.validate c t l)
    (h3 : s1 = WF.validateWorkflow c t l) (h4 : s2 = WF.validateWorkflow c t l) :
    r1 = r2 ∧ s1 = s2 :=
  ⟨h1.trans h2.symm, h3.trans h4.symm⟩

/-- C8 (witness): two runs on a concrete snapshot agree. -/
theorem validation_deterministic_witness :
    WF.validate cryptoYes dsT dsL = WF.validate cryptoYes dsT dsL ∧
    WF.validateWorkflow cryptoYes dsT dsL = WF.validateWorkflow cryptoYes dsT dsL :=
  validation_deterministic cryptoYes dsT dsL _ _ _ _ rfl rfl rfl rfl

/-- Committed predecessor for the workflow-variant scenarios: received by `"S"`,
`in_charge` PID `"S_1"`, workflow `"W"`. -/
def wfPrev : Txn :=
  { kind := TxnKind.task, sender := "X", receiver := "S",
    payload := { transaction_type := "2", workflow_id := "W",
                 previous_transaction := "", workflow_transaction := "",
                 in_charge := "S_1", document := [], processes := [],
                 permissions := [] } }

/-- Committed genesis record whose process table is empty: the key `"S_1"` is
absent, so the process-definition lookup raises. -/
def wfGenEmpty : Txn :=
  { kind := TxnKind.workflow, sender := "G", receiver := "X",
    payload := { transaction_type := "1", workflow_id := "W",
                 previous_transaction := "", workflow_transaction := "",
                 in_charge := "X_0", document := [], processes := [],
                 permissions := [] } }

/-- Task transaction passing every step before the process-definition lookup. -/
def wfT : Txn :=
  { kind := TxnKind.task, sender := "S", receiver := "R",
    payload := { transaction_type := "2", workflow_id := "W",
                 previous_transaction := "h0", workflow_transaction := "hw",
                 in_charge := "R_2", document := [], processes := [],
                 permissions := [] } }

/-- Ledger for the `KeyError` scenario: predecessor present, genesis present
but with an empty process table. -/
def wfLKey : Ledger :=
  { committed := [("h0", wfPrev), ("hw", wfGenEmpty)], poolWorkflows := [] }

/-- C1 (counterexample): the predecessor of `wfT` IS present in `wfLKey`, yet
`validate_transaction` raises — and not the distinguished structural error but
the `KeyError` coming from `workflow.processes[previous.in_charge]` with
`"S_1"` absent from the (empty) process table.  So an exception other than the
structural error escapes validation, refuting the claim's "if and only if"
and its "no other exception type" part at this input. -/
theorem validate_escapes_key_error_cex :
    wfLKey.get_transaction wfT.previous_transaction = some wfPrev ∧
    WF.validate cryptoYes wfT wfLKey = Except.error VErr.keyErr := by
  refine ⟨rfl, rfl⟩

/-- The inputs on which no statement of the workflow-variant
`validate_transaction` other than the guarded `raise` can throw: the type tag
is `'1'` or `'2'`, the `workflow_transaction` lookup resolves (else the
`workflow_ID` comparison dereferences `None`), and whenever both lookups
resolve the predecessor's `in_charge` is a key of the genesis process table
(else the process-definition lookup raises `KeyError`). -/
def safeInputs (t : Txn) (l : Ledger) : Bool :=
  (t.type == "2" || t.type == "1") &&
  (match l.get_transaction t.previous_transaction,
         l.get_transaction t.workflow_transaction with
   | _, none => false
   | none, some _ => true
   | some prev, some wf => (dictLookup wf.processes prev.in_charge).isSome)

set_option maxHeartbeats 1600000 in
/-- C1 (amended): on `safeInputs`, the workflow-variant `validate_transaction`
raises exactly when the referenced `previous_transaction` is absent from the
ledger, the raised error is the one distinguished structural error, and in
every other case the call returns a boolean.  (Outside `safeInputs` the claim
fails: a `KeyError` or `AttributeError` can escape, see the counterexample.) -/
theorem validate_error_iff_missing_previous (c : Crypto) (t : Txn) (l : Ledger)
    (hs : safeInputs t l = true) :
    (WF.validate c t l = Except.error VErr.corruptedChain ↔
      l.get_transaction t.previous_transaction = none) ∧
    (∀ e, WF.validate c t l = Except.error e → e = VErr.corruptedChain) := by
  unfold safeInputs at hs
  cases hprev : l.get_transaction t.previous_transaction with
  | none =>
    cases hwf : l.get_transaction t.workflow_transaction with
    | none => rw [hprev, hwf] at hs; simp at hs
    | some wf =>
      rw [hprev, hwf] at hs
      simp only [Bool.and_eq_true, Bool.or_eq_true, beq_iff_eq] at hs
      have hv : WF.validate c t l = Except.error VErr.corruptedChain := by
        unfold WF.validate
        rcases hs.1 with h | h <;> simp [hprev, h]
      refine ⟨⟨fun _ => rfl, fun _ => hv⟩, fun e he => ?_⟩
      have h2 := hv.symm.trans he
      injection h2 with h3
      exact h3.symm
  | some prev =>
    cases hwf : l.get_transaction t.workflow_transaction with
    | none => rw [hprev, hwf] at hs; simp at hs
    | some wf =>
      rw [hprev, hwf] at hs
      simp only [Bool.and_eq_true, Bool.or_eq_true, beq_iff_eq] at hs
      obtain ⟨hty, hproc⟩ := hs
      have hsafe : ∀ e, WF.validate c t l ≠ Except.error e := by
        intro e he
        unfold WF.validate at he
        rcases hd : dictLookup wf.processes prev.in_charge with _ | succs
        · rw [hd] at hproc; simp at hproc
        · rcases hty with h | h <;>
            simp only [hprev, hwf, WF.check_process_definition, hd, h] at he <;>
            (repeat' split at he) <;> simp_all
      exact ⟨⟨fun h => absurd h (hsafe _), fun h => Option.noConfusion h⟩,
             fun e he => absurd he (hsafe e)⟩

/-- A fresh genesis transaction for workflow `"W1"`. -/
def c2W : Txn :=
  { kind := TxnKind.workflow, sender := "G", receiver := "A",
    payload := { transaction_type := "1", workflow_id := "W1",
                 previous_transaction := "", workflow_transaction := "",
                 in_charge := "Q_0", document := [], processes := [],
                 permissions := [] } }

/-- A committed TASK transaction (type tag `'2'`) that carries the same
`workflow_id` `"W1"`. -/
def c2D : Txn :=
  { kind := TxnKind.task, sender := "S", receiver := "R",
    payload := { transaction_type := "2", workflow_id := "W1",
                 previous_transaction := "p", workflow_transaction := "w",
                 in_charge := "R_1", document := [], processes := [],
                 permissions := [] } }

/-- Ledger whose committed history holds `c2D` and whose pool is empty. -/
def c2L : Ledger := { committed := [("hd", c2D)], poolWorkflows := [] }

/-- C2 (counterexample): the committed transaction `c2D` carries the same
`workflow_id` as the genesis `c2W`, yet `c2W` validates TRUE: the uniqueness
scan keeps only transactions whose reconstructed type tag is `'1'`, so the
task-tagged `c2D` escapes it. -/
theorem workflow_uniqueness_misses_task_cex :
    c2D ∈ c2L.get_all_transactions ++ c2L.poolWorkflows ∧
    c2D ≠ c2W ∧
    c2D.workflow_ID = c2W.workflow_ID ∧
    WF.validateWorkflow cryptoYes c2W c2L = Except.ok true := by
  refine ⟨by simp [c2L, Ledger.get_all_transactions], by decide, rfl, rfl⟩

/-- C2 (amended): `WorkflowTransaction.validate_transaction` returns `false`
whenever any transaction — committed in the ledger or pending in the pool —
whose type tag is `'1'` (a genesis/workflow transaction) carries the same
`workflow_id`; in particular a second genesis transaction with an
already-pending `workflow_id` validates false. -/
theorem workflow_id_uniqueness_rejects (c : Crypto) (t : Txn) (l : Ledger)
    (w : Txn) (hw : w ∈ l.get_all_transactions ++ l.poolWorkflows)
    (hty : w.type = "1") (hid : w.workflow_ID = t.workflow_ID) :
    WF.validateWorkflow c t l = Except.ok false := by
  unfold WF.validateWorkflow
  have hany : ((l.get_all_transactions ++ l.poolWorkflows).filter
      (fun x => x.type == "1")).any
      (fun w2 => t.workflow_ID == w2.workflow_ID) = true := by
    rw [List.any_eq_true]
    exact ⟨w, List.mem_filter.mpr ⟨hw, by simp [hty]⟩, by simp [hid]⟩
  by_cases h1 : t.type = "1"
  · rw [if_neg (fun hh => hh h1), if_pos hany]
  · rw [if_pos h1]

/-- A second genesis transaction reusing `workflow_id` `"W1"`. -/
def c2W2 : Txn :=
  { kind := TxnKind.workflow, sender := "H", receiver := "B",
    payload := { transaction_type := "1", workflow_id := "W1",
                 previous_transaction := "", workflow_transaction := "",
                 in_charge := "Q_0", document := [], processes := [],
                 permissions := [] } }

/-- Ledger with nothing committed, `c2W` pending in the pool. -/
def c2PoolL : Ledger := { committed := [], poolWorkflows := [c2W] }

/-- C2 (witness): the spec's Scenario B — a second genesis transaction with
`workflow_id = "W1"` while the first is only pending validates false. -/
theorem workflow_id_uniqueness_rejects_witness :
    c2W ∈ c2PoolL.get_all_transactions ++ c2PoolL.poolWorkflows ∧
    c2W.type = "1" ∧ c2W.workflow_ID = c2W2.workflow_ID ∧
    WF.validateWorkflow cryptoYes c2W2 c2PoolL = Except.ok false :=
  ⟨by simp [c2PoolL, Ledger.get_all_transactions], rfl, rfl,
   workflow_id_uniqueness_rejects cryptoYes c2W2 c2PoolL c2W
     (by simp [c2PoolL, Ledger.get_all_transactions]) rfl rfl⟩

/-- If the ledger holds a Task/Workflow transaction sent by `t.sender`,
received by `t.receiver`, in the same workflow and with the same
`previous_transaction` reference, the duplicate filter is nonempty and the
check fails. -/
theorem duplicate_means_check_false (t : Txn) (l : Ledger) (D : Txn)
    (hs : D ∈ l.search_transaction_from_sender t.sender)
    (hr : D ∈ l.search_transaction_to_receiver t.receiver)
    (hk : D.kind = TxnKind.task ∨ D.kind = TxnKind.workflow)
    (hwid : D.workflow_ID = t.workflow_ID)
    (hp : D.previous_transaction = t.previous_transaction) :
    WF.check_for_duplicate_transactions t l = false := by
  unfold WF.check_for_duplicate_transactions
  have hmem : D ∈ ((((l.search_transaction_from_sender t.sender).filter
      (fun x => decide (x ∈ l.search_transaction_to_receiver t.receiver))).filter
      (fun x => x.kind == TxnKind.task || x.kind == TxnKind.workflow)).filter
      (fun x => x.workflow_ID == t.workflow_ID)).filter
      (fun x => x.previous_transaction == t.previous_transaction) := by
    refine List.mem_filter.mpr ⟨List.mem_filter.mpr ⟨List.mem_filter.mpr
      ⟨List.mem_filter.mpr ⟨hs, decide_eq_true hr⟩, ?_⟩, ?_⟩, ?_⟩
    · rcases hk with h | h <;> simp [h]
    · simp [hwid]
    · simp [hp]
  rw [if_pos (List.length_pos_of_mem hmem)]

/-- A task transaction whose predecessor reference `"h9"` is absent. -/
def c3T : Txn :=
  { kind := TxnKind.task, sender := "S", receiver := "R",
    payload := { transaction_type := "2", workflow_id := "W",
                 previous_transaction := "h9", workflow_transaction := "hw",
                 in_charge := "R_1", document := [], processes := [],
                 permissions := [] } }

/-- A committed transaction forming a duplicate of `c3T`: same sender,
receiver, workflow and predecessor reference. -/
def c3D : Txn :=
  { kind := TxnKind.task, sender := "S", receiver := "R",
    payload := { transaction_type := "2", workflow_id := "W",
                 previous_transaction := "h9", workflow_transaction := "hw",
                 in_charge := "R_9", document := [], processes := [],
                 permissions := [] } }

/-- Ledger holding only the duplicate `c3D`; the shared predecessor hash
`"h9"` itself resolves to nothing. -/
def c3L : Ledger := { committed := [("hd", c3D)], poolWorkflows := [] }

/-- C3 (counterexample): the ledger contains a duplicate of `c3T` (same
sender, receiver, workflow id and `previous_transaction`), yet
`validate_transaction` does not return `false` — the missing predecessor is
detected first and the call raises the structural error instead. -/
theorem duplicate_preempted_by_raise_cex :
    c3D ∈ c3L.search_transaction_from_sender c3T.sender ∧
    c3D ∈ c3L.search_transaction_to_receiver c3T.receiver ∧
    c3D.kind = TxnKind.task ∧
    c3D.workflow_ID = c3T.workflow_ID ∧
    c3D.previous_transaction = c3T.previous_transaction ∧
    WF.validate cryptoYes c3T c3L = Except.error VErr.corruptedChain ∧
    WF.validate cryptoYes c3T c3L ≠ Except.ok false := by
  refine ⟨by decide, by decide, rfl, rfl, rfl, rfl, ?_⟩
  intro h
  have hv : WF.validate cryptoYes c3T c3L = Except.error VErr.corruptedChain := rfl
  rw [hv] at h
  exact Except.noConfusion h

set_option maxHeartbeats 1600000 in
/-- C3 (amended): whenever the ledger contains a Task/Workflow transaction
that is among the transactions sent by `t.sender` and among those received by
`t.receiver`, in the same workflow and with the same `previous_transaction`
reference, `validate_transaction` never returns `true` (it returns `false`,
or raises before reaching the duplicate check). -/
theorem duplicate_never_admitted (c : Crypto) (t : Txn) (l : Ledger) (D : Txn)
    (hs : D ∈ l.search_transaction_from_sender t.sender)
    (hr : D ∈ l.search_transaction_to_receiver t.receiver)
    (hk : D.kind = TxnKind.task ∨ D.kind = TxnKind.workflow)
    (hwid : D.workflow_ID = t.workflow_ID)
    (hp : D.previous_transaction = t.previous_transaction) :
    WF.validate c t l ≠ Except.ok true := by
  intro h
  have hdup := duplicate_means_check_false t l D hs hr hk hwid hp
  unfold WF.validate at h
  repeat' split at h
  all_goals simp_all

/-- C3 (witness): the amended theorem evaluated on the concrete duplicate
scenario. -/
theorem duplicate_never_admitted_witness :
    c3D ∈ c3L.search_transaction_from_sender c3T.sender ∧
    c3D ∈ c3L.search_transaction_to_receiver c3T.receiver ∧
    (c3D.kind = TxnKind.task ∨ c3D.kind = TxnKind.workflow) ∧
    c3D.workflow_ID = c3T.workflow_ID ∧
    c3D.previous_transaction = c3T.previous_transaction ∧
    WF.validate cryptoYes c3T c3L ≠ Except.ok true :=
  ⟨by decide, by decide, Or.inl rfl, rfl, rfl,
   duplicate_never_admitted cryptoYes c3T c3L c3D (by decide) (by decide)
     (Or.inl rfl) rfl rfl⟩

/-- Committed genesis record whose process table allows `"S_1" -> ["R_2"]`. -/
def wfGen : Txn :=
  { kind := TxnKind.workflow, sender := "G", receiver := "X",
    payload := { transaction_type := "1", workflow_id := "W",
                 previous_transaction := "", workflow_transaction := "",
                 in_charge := "X_0", document := ["title"],
                 processes := [("S_1", ["R_2"])],
                 permissions := [("title", ["S_1"])] } }

/-- Ledger with predecessor and the permissive genesis record. -/
def wfL : Ledger :=
  { committed := [("h0", wfPrev), ("hw", wfGen)], poolWorkflows := [] }

/-- C1 (witness): the amended characterization evaluated on a concrete safe
input whose predecessor resolves. -/
theorem validate_error_iff_missing_previous_witness :
    safeInputs wfT wfL = true ∧
    ((WF.validate cryptoYes wfT wfL = Except.error VErr.corruptedChain ↔
      wfL.get_transaction wfT.previous_transaction = none) ∧
     ∀ e, WF.validate cryptoYes wfT wfL = Except.error e →
       e = VErr.corruptedChain) :=
  ⟨rfl, validate_error_iff_missing_previous cryptoYes wfT wfL rfl⟩

/-- C4: given that the predecessor and the governing workflow transaction both
resolve, the write-permission step passes iff every attribute name in
`t.document` is a key of the genesis `permissions` table listing the
predecessor's `in_charge` PID; any miss makes `validate_transaction` return
`false`. -/
theorem write_permission_check_correct (c : Crypto) (t : Txn) (l : Ledger)
    (prev wf : Txn)
    (hprev : l.get_transaction t.previous_transaction = some prev)
    (hwf : l.get_transaction t.workflow_transaction = some wf) :
    (WF.check_permissions_write t prev (some wf) = true ↔
      ∀ attr ∈ t.document, ∃ pids,
        dictLookup wf.permissions attr = some pids ∧ prev.in_charge ∈ pids) ∧
    ((¬ ∀ attr ∈ t.document, ∃ pids,
        dictLookup wf.permissions attr = some pids ∧ prev.in_charge ∈ pids) →
      WF.validate c t l = Except.ok false) := by
  have hiff : WF.check_permissions_write t prev (some wf) = true ↔
      ∀ attr ∈ t.document, ∃ pids,
        dictLookup wf.permissions attr = some pids ∧ prev.in_charge ∈ pids := by
    unfold WF.check_permissions_write
    rw [List.all_eq_true]
    constructor
    · intro h attr hattr
      have h2 := h attr hattr
      cases hd : dictLookup wf.permissions attr with
      | none => rw [hd] at h2; simp at h2
      | some pids =>
        rw [hd] at h2
        exact ⟨pids, rfl, by simpa using h2⟩
    · intro h attr hattr
      obtain ⟨pids, hd, hmem⟩ := h attr hattr
      rw [hd]
      simpa using hmem
  refine ⟨hiff, fun hne => ?_⟩
  have hcf : WF.check_permissions_write t prev (some wf) = false := by
    cases hb : WF.check_permissions_write t prev (some wf)
    · rfl
    · exact absurd (hiff.mp hb) hne
  unfold WF.validate
  simp [hprev, hwf, hcf]

/-- A task transaction mutating the attribute `"forbidden"`, which the genesis
permission table does not list. -/
def c4T : Txn :=
  { kind := TxnKind.task, sender := "S", receiver := "R",
    payload := { transaction_type := "2", workflow_id := "W",
                 previous_transaction := "h0", workflow_transaction := "hw",
                 in_charge := "R_2", document := ["forbidden"],
                 processes := [], permissions := [] } }

/-- C4 (witness): the permission characterization evaluated on the concrete
ledger `wfL`, where `c4T` touches an attribute missing from `permissions`. -/
theorem write_permission_check_correct_witness :
    wfL.get_transaction c4T.previous_transaction = some wfPrev ∧
    wfL.get_transaction c4T.workflow_transaction = some wfGen ∧
    ((WF.check_permissions_write c4T wfPrev (some wfGen) = true ↔
      ∀ attr ∈ c4T.document, ∃ pids,
        dictLookup wfGen.permissions attr = some pids ∧ wfPrev.in_charge ∈ pids) ∧
     ((¬ ∀ attr ∈ c4T.document, ∃ pids,
        dictLookup wfGen.permissions attr = some pids ∧ wfPrev.in_charge ∈ pids) →
      WF.validate cryptoYes c4T wfL = Except.ok false)) :=
  ⟨rfl, rfl, write_permission_check_correct cryptoYes c4T wfL wfPrev wfGen rfl rfl⟩

/-- C5: if the predecessor and governing workflow transaction resolve, the
predecessor's `in_charge` is a key of the genesis process table, and
`t.in_charge` is NOT among the allowed successors, then validation returns
`false` — for EVERY cryptographic provider, i.e. the signature check is never
consulted. -/
theorem process_definition_rejects_before_signature (c : Crypto) (t : Txn)
    (l : Ledger) (prev wf : Txn) (succs : List String)
    (hprev : l.get_transaction t.previous_transaction = some prev)
    (hwf : l.get_transaction t.workflow_transaction = some wf)
    (hd : dictLookup wf.processes prev.in_charge = some succs)
    (hni : t.in_charge ∉ succs) :
    WF.validate c t l = Except.ok false := by
  unfold WF.validate
  simp only [hprev, hwf, WF.check_process_definition, hd]
  simp
  intro _ _ _ _ _ _ _ hmem _
  exact absurd hmem hni

/-- Genesis record whose process table maps `"S_1"` to successors that do not
include `wfT`'s `in_charge` PID. -/
def c5Gen : Txn :=
  { kind := TxnKind.workflow, sender := "G", receiver := "X",
    payload := { transaction_type := "1", workflow_id := "W",
                 previous_transaction := "", workflow_transaction := "",
                 in_charge := "X_0", document := [],
                 processes := [("S_1", ["Q_9"])], permissions := [] } }

/-- Ledger for the disallowed-successor scenario. -/
def c5L : Ledger :=
  { committed := [("h0", wfPrev), ("hw", c5Gen)], poolWorkflows := [] }

/-- C5 (witness): the spec's Scenario D on concrete data — `in_charge` not in
`processes[previous.in_charge]` validates false (with the all-accepting
provider, showing the signature oracle was never decisive). -/
theorem process_definition_rejects_witness :
    c5L.get_transaction wfT.previous_transaction = some wfPrev ∧
    c5L.get_transaction wfT.workflow_transaction = some c5Gen ∧
    dictLookup c5Gen.processes wfPrev.in_charge = some ["Q_9"] ∧
    wfT.in_charge ∉ (["Q_9"] : List String) ∧
    WF.validate cryptoYes wfT c5L = Except.ok false :=
  ⟨rfl, rfl, rfl, by decide,
   process_definition_rejects_before_signature cryptoYes wfT c5L wfPrev c5Gen
     ["Q_9"] rfl rfl rfl (by decide)⟩

/-- A task transaction whose sender `"Z"` is NOT the predecessor's receiver
and whose `workflow_transaction` hash `"hx"` is absent from the ledger. -/
def c6T : Txn :=
  { kind := TxnKind.task, sender := "Z", receiver := "R",
    payload := { transaction_type := "2", workflow_id := "W",
                 previous_transaction := "h0", workflow_transaction := "hx",
                 in_charge := "R_2", document := [], processes := [],
                 permissions := [] } }

/-- Ledger holding only the predecessor. -/
def c6L : Ledger := { committed := [("h0", wfPrev)], poolWorkflows := [] }

/-- C6 (counterexample): the predecessor of `c6T` resolves and
`c6T.sender ≠ previous.receiver`, yet `validate_transaction` does not return
`false`: the matching workflow id makes line 47 dereference the `None` result
of the `workflow_transaction` lookup first, so an `AttributeError` escapes
before the custody check runs. -/
theorem custody_preempted_by_attr_error_cex :
    c6L.get_transaction c6T.previous_transaction = some wfPrev ∧
    c6T.sender ≠ wfPrev.receiver ∧
    WF.validate cryptoYes c6T c6L = Except.error VErr.attrErr ∧
    WF.validate cryptoYes c6T c6L ≠ Except.ok false := by
  refine ⟨rfl, by decide, rfl, ?_⟩
  intro h
  have hv : WF.validate cryptoYes c6T c6L = Except.error VErr.attrErr := rfl
  rw [hv] at h
  exact Except.noConfusion h

/-- C6 (amended): when both the predecessor and the governing workflow
transaction resolve, `validate_transaction` returns `false` unless the sender
equals the predecessor's receiver (custody continuity); consequently every
admitted task transaction satisfies
`t.sender = ledger.get_transaction(t.previous_transaction).receiver`. -/
theorem custody_continuity (c : Crypto) (t : Txn) (l : Ledger) (prev wf : Txn)
    (hprev : l.get_transaction t.previous_transaction = some prev)
    (hwf : l.get_transaction t.workflow_transaction = some wf) :
    (¬ t.sender = prev.receiver → WF.validate c t l = Except.ok false) ∧
    (WF.validate c t l = Except.ok true → t.sender = prev.receiver) := by
  have hpart : ¬ t.sender = prev.receiver →
      WF.validate c t l = Except.ok false := by
    intro hne
    have hcc : ¬ prev.receiver = t.sender := fun hh => hne hh.symm
    unfold WF.validate
    simp [hprev, hwf, hcc]
  refine ⟨hpart, fun h => ?_⟩
  by_cases hc : t.sender = prev.receiver
  · exact hc
  · rw [hpart hc] at h
    exact absurd h (by simp)

/-- A task transaction from the wrong sender, with a resolvable genesis. -/
def c6T2 : Txn :=
  { kind := TxnKind.task, sender := "Z", receiver := "R",
    payload := { transaction_type := "2", workflow_id := "W",
                 previous_transaction := "h0", workflow_transaction := "hw",
                 in_charge := "R_2", document := [], processes := [],
                 permissions := [] } }

/-- C6 (witness): the custody theorem evaluated on concrete data where both
references resolve. -/
theorem custody_continuity_witness :
    wfL.get_transaction c6T2.previous_transaction = some wfPrev ∧
    wfL.get_transaction c6T2.workflow_transaction = some wfGen ∧
    ((¬ c6T2.sender = wfPrev.receiver →
       WF.validate cryptoYes c6T2 wfL = Except.ok false) ∧
     (WF.validate cryptoYes c6T2 wfL = Except.ok true →
       c6T2.sender = wfPrev.receiver)) :=
  ⟨rfl, rfl, custody_continuity cryptoYes c6T2 wfL wfPrev wfGen rfl rfl⟩
